import Mathlib

/-!
Shallow embedding of `xbps.py` (files `src/xbps/util/package.py` and
`src/xbps/util/repodata.py`) and proofs about it.

Python dictionaries are modelled as association lists in insertion order
with unique keys; `dict.get` is first-match lookup, assignment updates in
place or appends, `del` removes the key.  Machine strings are Lean
`String`s; `pathlib.Path` is modelled by its string payload.
-/

/-- Heterogeneous property-list value, the element type of the raw
attribute mappings fed to `Package.__init__`. -/
inductive Value where
  | str (s : String)
  | bool (b : Bool)
  | int (n : Int)
  | list (l : List Value)
  | dict (d : List (String × Value))
deriving Repr

/-- Python `str.partition(sep)` restricted to a one-character separator:
split the character list at the FIRST occurrence of `c`. -/
def psplitFirst (c : Char) : List Char → Option (List Char × List Char)
  | [] => none
  | x :: xs =>
    if x = c then some ([], xs)
    else
      match psplitFirst c xs with
      | some (b, a) => some (x :: b, a)
      | none => none

/-- Python `str.rpartition(sep)` restricted to a one-character separator:
split the character list at the LAST occurrence of `c`. -/
def rsplitLast (c : Char) : List Char → Option (List Char × List Char)
  | [] => none
  | x :: xs =>
    match rsplitLast c xs with
    | some (b, a) => some (x :: b, a)
    | none => if x = c then some ([], xs) else none

/-- Python `s.partition(c)`: `(before, sep, after)` at the first
occurrence of `c`, or `(s, "", "")` when `c` does not occur. -/
def pyPartition (s : String) (c : Char) : String × String × String :=
  match psplitFirst c s.data with
  | some (b, a) => (⟨b⟩, ⟨[c]⟩, ⟨a⟩)
  | none => (s, "", "")

/-- Python `s.rpartition(c)`: `(before, sep, after)` at the last
occurrence of `c`, or `("", "", s)` when `c` does not occur. -/
def pyRPartition (s : String) (c : Char) : String × String × String :=
  match rsplitLast c s.data with
  | some (b, a) => (⟨b⟩, ⟨[c]⟩, ⟨a⟩)
  | none => ("", "", s)

/-- The `Package` dataclass of `package.py`, with fields typed as their
dataclass annotations.  `pkgver` and `architecture` carry no default in
the source and `__init__` never checks them, so they are `Option`s here,
`none` meaning the attribute was never assigned.  The value stored for
`alternatives` after a string input is the list built by the string
branch of `__init__`; otherwise the raw value is kept. -/
inductive AltStored where
  | parsed (l : List (String × String))
  | raw (v : Value)
deriving Repr

structure Package where
  pkgver : Option String := none
  architecture : Option String := none
  alternatives : Option AltStored := none
  automatic_install : Option Bool := none
  build_date : Option String := none
  build_options : List String := []
  changelog : Option String := none
  conf_files : List String := []
  conflicts : List String := []
  filename_sha256 : Option String := none
  filename_size : Option String := none
  hold : Option Bool := none
  homepage : Option String := none
  install_date : Option String := none
  install_msg : Option String := none
  install_script : Option String := none
  installed_size : Option String := none
  license : Option String := none
  long_desc : Option String := none
  maintainer : Option String := none
  metafile_sha256 : Option String := none
  packaged_with : Option String := none
  preserve : Option Bool := none
  provides : List String := []
  remove_msg : Option String := none
  remove_script : Option String := none
  replaces : List String := []
  repolock : Option Bool := none
  repository : Option String := none
  reverts : List String := []
  run_depends : List String := []
  shlib_provides : List String := []
  shlib_requires : List String := []
  short_desc : Option String := none
  source_revisions : Option String := none
  sourcepkg : Option String := none
  tags : List String := []
deriving Repr

/-- The set `names = set(f.name for f in fields(self))` from
`Package.__init__`. -/
def fieldNames : List String :=
  ["pkgver", "architecture", "alternatives", "automatic_install",
   "build_date", "build_options", "changelog", "conf_files", "conflicts",
   "filename_sha256", "filename_size", "hold", "homepage", "install_date",
   "install_msg", "install_script", "installed_size", "license",
   "long_desc", "maintainer", "metafile_sha256", "packaged_with",
   "preserve", "provides", "remove_msg", "remove_script", "replaces",
   "repolock", "repository", "reverts", "run_depends", "shlib_provides",
   "shlib_requires", "short_desc", "source_revisions", "sourcepkg", "tags"]

/-- The `alternatives` string branch of `Package.__init__`: `for itm in v`
iterates over the CHARACTERS of the string `v`; each character is
partitioned on the first colon and stored as `(parts[0], Path(parts[2]))`. -/
def parseAltStr (v : String) : List (String × String) :=
  v.data.map fun itm =>
    let parts := pyPartition ⟨[itm]⟩ ':'
    (parts.1, parts.2.2)

/-- Extract a string value, keeping the old slot on any other runtime
type (values of another type than the annotation are outside the model). -/
def asStr (v : Value) (old : Option String) : Option String :=
  match v with
  | .str s => some s
  | _ => old

/-- Extract a boolean value, keeping the old slot otherwise. -/
def asBool (v : Value) (old : Option Bool) : Option Bool :=
  match v with
  | .bool b => some b
  | _ => old

/-- Extract a list-of-strings value, keeping the old slot otherwise. -/
def asStrList (v : Value) (old : List String) : List String :=
  match v with
  | .list l => l.filterMap fun x => match x with | .str s => some s | _ => none
  | _ => old

/-- One `setattr(self, k, v)` of `Package.__init__`, after key
normalization and the known-name check, including the two `match k`
special cases (`alternatives`, `build_options`). -/
def setField (p : Package) (k : String) (v : Value) : Package :=
  match k with
  | "pkgver" => { p with pkgver := asStr v p.pkgver }
  | "architecture" => { p with architecture := asStr v p.architecture }
  | "alternatives" =>
    match v with
    | .str s => { p with alternatives := some (.parsed (parseAltStr s)) }
    | w => { p with alternatives := some (.raw w) }
  | "automatic_install" => { p with automatic_install := asBool v p.automatic_install }
  | "build_date" => { p with build_date := asStr v p.build_date }
  | "build_options" =>
    match v with
    | .str s => { p with build_options := s.splitOn " " }
    | w => { p with build_options := asStrList w p.build_options }
  | "changelog" => { p with changelog := asStr v p.changelog }
  | "conf_files" => { p with conf_files := asStrList v p.conf_files }
  | "conflicts" => { p with conflicts := asStrList v p.conflicts }
  | "filename_sha256" => { p with filename_sha256 := asStr v p.filename_sha256 }
  | "filename_size" => { p with filename_size := asStr v p.filename_size }
  | "hold" => { p with hold := asBool v p.hold }
  | "homepage" => { p with homepage := asStr v p.homepage }
  | "install_date" => { p with install_date := asStr v p.install_date }
  | "install_msg" => { p with install_msg := asStr v p.install_msg }
  | "install_script" => { p with install_script := asStr v p.install_script }
  | "installed_size" => { p with installed_size := asStr v p.installed_size }
  | "license" => { p with license := asStr v p.license }
  | "long_desc" => { p with long_desc := asStr v p.long_desc }
  | "maintainer" => { p with maintainer := asStr v p.maintainer }
  | "metafile_sha256" => { p with metafile_sha256 := asStr v p.metafile_sha256 }
  | "packaged_with" => { p with packaged_with := asStr v p.packaged_with }
  | "preserve" => { p with preserve := asBool v p.preserve }
  | "provides" => { p with provides := asStrList v p.provides }
  | "remove_msg" => { p with remove_msg := asStr v p.remove_msg }
  | "remove_script" => { p with remove_script := asStr v p.remove_script }
  | "replaces" => { p with replaces := asStrList v p.replaces }
  | "repolock" => { p with repolock := asBool v p.repolock }
  | "repository" => { p with repository := asStr v p.repository }
  | "reverts" => { p with reverts := asStrList v p.reverts }
  | "run_depends" => { p with run_depends := asStrList v p.run_depends }
  | "shlib_provides" => { p with shlib_provides := asStrList v p.shlib_provides }
  | "shlib_requires" => { p with shlib_requires := asStrList v p.shlib_requires }
  | "short_desc" => { p with short_desc := asStr v p.short_desc }
  | "source_revisions" => { p with source_revisions := asStr v p.source_revisions }
  | "sourcepkg" => { p with sourcepkg := asStr v p.sourcepkg }
  | "tags" => { p with tags := asStrList v p.tags }
  | _ => p

/-- Key normalization of `Package.__init__`: `if "-" in k: k = k.replace("-", "_")`. -/
def normKey (k : String) : String :=
  if k.data.contains '-' then ⟨k.data.map fun c => if c = '-' then '_' else c⟩ else k

/-- `Package.__init__(**kwargs)`: walk the raw mapping in order, normalize
each key, silently drop keys not among the dataclass field names, and
assign the rest.  Total: no input mapping is rejected. -/
def Package.ofMap (kwargs : List (String × Value)) : Package :=
  kwargs.foldl
    (fun p kv =>
      let k := normKey kv.1
      if k ∈ fieldNames then setField p k kv.2 else p)
    {}

/-- The `pkgname` property: `self.pkgver.rpartition("-")[0]`, an
`AttributeError` when `pkgver` was never assigned. -/
def Package.pkgname (p : Package) : Except String String :=
  match p.pkgver with
  | some s => .ok (pyRPartition s '-').1
  | none => .error "AttributeError: pkgver"

/-- The `version` property: `self.pkgver.rpartition("-")[2]`, an
`AttributeError` when `pkgver` was never assigned. -/
def Package.version (p : Package) : Except String String :=
  match p.pkgver with
  | some s => .ok (pyRPartition s '-').2.2
  | none => .error "AttributeError: pkgver"

/-- `RepoIndex`: an insertion-ordered mapping from package name to
`Package`. -/
abbrev RepoIndex := List (String × Package)

/-- `SignatureType` / `RepoMeta` of `repodata.py`. -/
inductive SignatureType where
  | rsa
deriving Repr, DecidableEq

structure RepoMeta where
  public_key : String
  public_key_size : Nat
  signature_by : String
  signature_type : SignatureType
deriving Repr, DecidableEq

/-- The `StageDiff` dataclass of `repodata.py`. -/
structure StageDiff where
  shlib : String
  provider : Option String
  required_by : List String
deriving Repr, DecidableEq

/-- The `Repodata` dataclass of `repodata.py`. -/
structure Repodata where
  index : RepoIndex
  stage : RepoIndex
  meta : Option RepoMeta := none

/-- Python `dict.get` on an association list: first match. -/
def dictGet (m : List (String × String)) (k : String) : Option String :=
  (m.find? fun kv => kv.1 == k).map fun kv => kv.2

/-- Python `dict[k] = v`: update the existing slot in place, else append. -/
def dictSet (m : List (String × String)) (k v : String) : List (String × String) :=
  if m.any fun kv => kv.1 == k then
    m.map fun kv => if kv.1 == k then (kv.1, v) else kv
  else m ++ [(k, v)]

/-- `index.get(pkgname)` on a `RepoIndex`. -/
def idxGet (idx : RepoIndex) (k : String) : Option Package :=
  (idx.find? fun kv => kv.1 == k).map fun kv => kv.2

/-- `used_shlibs[shlib].append(pkgname)` on a `defaultdict(list)`: append
to the existing entry, or insert the key at the end with a one-element
list. -/
def usedAdd (m : List (String × List String)) (k v : String) :
    List (String × List String) :=
  if m.any fun kv => kv.1 == k then
    m.map fun kv => if kv.1 == k then (kv.1, kv.2 ++ [v]) else kv
  else m ++ [(k, [v])]

/-- `del used_shlibs[shlib]`. -/
def usedDel (m : List (String × List String)) (k : String) :
    List (String × List String) :=
  m.filter fun kv => ¬ kv.1 == k

/-- Step "find all old shlib-provides" of `Repodata.compute_stage`: for
every staged package name also present in the committed index, record
each shared library its COMMITTED version provides, mapped to that
package name. -/
def oldShlibsOf (rd : Repodata) : List (String × String) :=
  rd.stage.foldl
    (fun os kv =>
      match idxGet rd.index kv.1 with
      | some pkg => pkg.shlib_provides.foldl (fun os shlib => dictSet os shlib kv.1) os
      | none => os)
    []

/-- Step "throw away all unused shlibs": for every committed package name,
take `self.stage.get(pkgname, self.index.get(pkgname))` and record each
shared library it requires that is a key of `old_shlibs`. -/
def usedStep (rd : Repodata) (os : List (String × String)) :
    List (String × List String) :=
  rd.index.foldl
    (fun us kv =>
      match (idxGet rd.stage kv.1).orElse (fun _ => idxGet rd.index kv.1) with
      | some pkg =>
        pkg.shlib_requires.foldl
          (fun us shlib =>
            if (dictGet os shlib).isSome then usedAdd us shlib kv.1 else us)
          us
      | none => us)
    []

/-- Purge step A: drop every library provided by a committed package that
is not in the stage. -/
def purgeA (rd : Repodata) (us : List (String × List String)) :
    List (String × List String) :=
  rd.index.foldl
    (fun us kv =>
      if rd.stage.any fun s => s.1 == kv.1 then us
      else
        kv.2.shlib_provides.foldl
          (fun us shlib => if us.any fun u => u.1 == shlib then usedDel us shlib else us)
          us)
    us

/-- Purge step B: drop every library provided by a STAGED package. -/
def purgeB (rd : Repodata) (us : List (String × List String)) :
    List (String × List String) :=
  rd.stage.foldl
    (fun us kv =>
      kv.2.shlib_provides.foldl
        (fun us shlib => if us.any fun u => u.1 == shlib then usedDel us shlib else us)
        us)
    us

/-- `Repodata.compute_stage`, the shared-library consistency check. -/
def Repodata.computeStage (rd : Repodata) : List StageDiff :=
  if rd.stage.length == 0 then []
  else
    (purgeB rd (purgeA rd (usedStep rd (oldShlibsOf rd)))).map
      fun kv =>
        { shlib := kv.1, provider := dictGet (oldShlibsOf rd) kv.1, required_by := kv.2 }

/-- A decompressed archive member, an abstract readable byte stream. -/
abbrev ByteStream := List Nat

/-- The error raised by `_extract_index`: Python `FileNotFoundError(arg)`,
whose single argument is recoverable from the exception.  The source
passes the member name in the absent-member case and the literal string
`"not a file"` in the not-a-file case. -/
structure FileNotFoundError where
  arg : String
deriving Repr, DecidableEq

/-- Boundary model of an opened `tarfile.TarFile`: `tar.extractfile name`
raises `KeyError` (here `none`), returns `None` for a member that is not
a regular file (here `some none`), or returns a readable stream (here
`some (some s)`). -/
abbrev Tar := String → Option (Option ByteStream)

/-- `_extract_index(tar, fname)` of `repodata.py`. -/
def extractIndex (tar : Tar) (fname : String) : Except FileNotFoundError ByteStream :=
  match tar fname with
  | none => .error ⟨fname⟩
  | some none => .error ⟨"not a file"⟩
  | some (some f) => .ok f

/-- Boundary model of `plistlib.load` on a byte stream: a successful
parse delivers the top-level mapping; an empty or structurally invalid
XML document is reported as `ExpatError`; any other failure while
reading the stream is an I/O error carried through unchanged. -/
inductive PlistLoad where
  | ok (m : List (String × List (String × Value)))
  | expatError
  | ioError (e : String)

/-- `_read_index(f)` of `repodata.py`: build a `Package` from each entry
of the decoded mapping; `except ExpatError: pass` leaves the index
empty; any other exception propagates. -/
def readIndex (r : PlistLoad) : Except String RepoIndex :=
  match r with
  | .ok m => .ok (m.map fun kv => (kv.1, Package.ofMap kv.2))
  | .expatError => .ok []
  | .ioError e => .error e

/-- `pathlib.Path`, modelled by its string payload. -/
structure PyPath where
  s : String
deriving Repr, DecidableEq

/-- The argument of `Repodata.from_repodata`: `url : str | Path`. -/
inductive RepodataSource where
  | path (p : PyPath)
  | str (s : String)
deriving Repr, DecidableEq

/-- Which loader `from_repodata` hands its argument to. -/
inductive RepodataDispatch where
  | toLocal (p : PyPath)
  | toRemote (u : String)
deriving Repr, DecidableEq

/-- Python `url.startswith(("http://", "https://", "ftp://", "socks5://"))`. -/
def urlHasRemoteScheme (s : String) : Bool :=
  "http://".data.isPrefixOf s.data || "https://".data.isPrefixOf s.data ||
    "ftp://".data.isPrefixOf s.data || "socks5://".data.isPrefixOf s.data

/-- `Repodata.from_repodata` of `repodata.py`: a `Path` goes straight to
`from_local`; a string with a recognized URL scheme goes to
`from_remote`; any other string is wrapped in `Path` and goes to
`from_local`. -/
def fromRepodata (url : RepodataSource) : RepodataDispatch :=
  match url with
  | .path p => .toLocal p
  | .str s => if urlHasRemoteScheme s then .toRemote s else .toLocal ⟨s⟩

/-- Committed package `A-1.0_1`, providing `libfoo.so.1`. -/
def pkgA : Package :=
  { pkgver := some "A-1.0_1", shlib_provides := ["libfoo.so.1"] }

/-- Committed package `B-1.0_1`, requiring `libfoo.so.1`. -/
def pkgB : Package :=
  { pkgver := some "B-1.0_1", shlib_requires := ["libfoo.so.1"] }

/-- Staged replacement `A-2.0_1` that no longer provides `libfoo.so.1`. -/
def pkgA2 : Package :=
  { pkgver := some "A-2.0_1" }

/-- Staged replacement `A-2.0_1` that STILL provides `libfoo.so.1`. -/
def pkgA2keep : Package :=
  { pkgver := some "A-2.0_1", shlib_provides := ["libfoo.so.1"] }

/-- Repodata for the broken-replacement scenario: index has `A` and `B`,
stage replaces only `A` and drops the library. -/
def rdBroken : Repodata :=
  { index := [("A", pkgA), ("B", pkgB)], stage := [("A", pkgA2)] }

/-- Repodata for the safe-replacement scenario: the staged `A` still
provides `libfoo.so.1`. -/
def rdSafe : Repodata :=
  { index := [("A", pkgA), ("B", pkgB)], stage := [("A", pkgA2keep)] }

/-- Claim C1: with `A` providing `libfoo.so.1` and `B` requiring it in
the committed index, and the stage holding only a replacement for `A`
that no longer provides the library, `compute_stage` returns exactly one
`StageDiff`, with shlib `libfoo.so.1`, provider `A` and
required-by list `[B]`. -/
theorem computeStage_broken_replacement :
    rdBroken.computeStage = [{ shlib := "libfoo.so.1", provider := some "A", required_by := ["B"] }] := by
  decide

/-- Claim C6: with the same committed index but a staged `A` that still
provides `libfoo.so.1`, `compute_stage` returns the empty list: purge
step B removes every library the staged versions provide. -/
theorem computeStage_safe_replacement : rdSafe.computeStage = [] := by
  decide

/-- Claim C5: when the stage mapping is empty, `compute_stage` returns
the empty list whatever the committed index holds. -/
theorem computeStage_empty_stage (rd : Repodata) (h : rd.stage = []) :
    rd.computeStage = [] := by
  simp [Repodata.computeStage, h]

/-- Witness for C5 at a Repodata with a non-trivial committed index and
an empty stage. -/
theorem computeStage_empty_stage_witness :
    ({ index := [("A", pkgA), ("B", pkgB)], stage := [] } : Repodata).computeStage = [] :=
  computeStage_empty_stage { index := [("A", pkgA), ("B", pkgB)], stage := [] } rfl

/-- Claim C9: `from_repodata` sends a `Path` straight to `from_local`; a
string beginning with one of the four literal URL schemes to
`from_remote`; and every other string, wrapped in `Path`, to
`from_local`. -/
theorem fromRepodata_dispatch :
    (∀ p, fromRepodata (.path p) = .toLocal p) ∧
    (∀ s, ("http://".data.isPrefixOf s.data = true ∨ "https://".data.isPrefixOf s.data = true ∨
        "ftp://".data.isPrefixOf s.data = true ∨ "socks5://".data.isPrefixOf s.data = true) →
      fromRepodata (.str s) = .toRemote s) ∧
    (∀ s, ¬("http://".data.isPrefixOf s.data = true ∨ "https://".data.isPrefixOf s.data = true ∨
        "ftp://".data.isPrefixOf s.data = true ∨ "socks5://".data.isPrefixOf s.data = true) →
      fromRepodata (.str s) = .toLocal ⟨s⟩) := by
  refine ⟨fun p => rfl, fun s h => ?_, fun s h => ?_⟩
  · have hs : urlHasRemoteScheme s = true := by
      simp only [urlHasRemoteScheme, Bool.or_eq_true]
      tauto
    simp [fromRepodata, hs]
  · have hs : urlHasRemoteScheme s = false := by
      simp only [urlHasRemoteScheme, Bool.or_eq_false_iff, Bool.not_eq_true]
      push_neg at h
      simp only [Bool.not_eq_true] at h
      tauto
    simp [fromRepodata, hs]

/-- Witness for C9 at a concrete path, a remote URL and a bare string. -/
theorem fromRepodata_dispatch_witness :
    fromRepodata (.path ⟨"/srv/repo"⟩) = .toLocal ⟨"/srv/repo"⟩ ∧
    fromRepodata (.str "https://repo.example/current") = .toRemote "https://repo.example/current" ∧
    fromRepodata (.str "repo/current") = .toLocal ⟨"repo/current"⟩ :=
  ⟨fromRepodata_dispatch.1 ⟨"/srv/repo"⟩,
   fromRepodata_dispatch.2.1 "https://repo.example/current" (by decide),
   fromRepodata_dispatch.2.2 "repo/current" (by decide)⟩

/-- Claim C7: a property-list stream reported by the decoder as empty or
structurally invalid at the XML level (`ExpatError`) decodes to an empty
index with no error surfaced; any other I/O failure on the stream
propagates unchanged. -/
theorem readIndex_error_policy :
    readIndex .expatError = .ok [] ∧ (∀ e, readIndex (.ioError e) = .error e) :=
  ⟨rfl, fun _ => rfl⟩

/-- Claim C2, behaviour of the code at the spec's test input: the
`alternatives` string branch iterates over CHARACTERS, so
`"x11:/usr/bin/x"` yields fourteen single-character entries (the colon
becomes `("", "")`), not the single entry `("x11", "/usr/bin/x")` the
spec expects. -/
theorem alternatives_string_char_iteration :
    (Package.ofMap [("alternatives", Value.str "x11:/usr/bin/x")]).alternatives =
      some (AltStored.parsed
        [("x", ""), ("1", ""), ("1", ""), ("", ""), ("/", ""), ("u", ""), ("s", ""),
         ("r", ""), ("/", ""), ("b", ""), ("i", ""), ("n", ""), ("/", ""), ("x", "")]) ∧
    (parseAltStr "x11:/usr/bin/x").length = 14 := by
  constructor <;> rfl

/-- A tar archive with no members at all. -/
def tarMissing : Tar := fun _ => none

/-- A tar archive in which `index.plist` exists but is not a regular
file, so `extractfile` returns `None` for it. -/
def tarDirEntry : Tar := fun s => if s = "index.plist" then some none else none

/-- Counterexample for C8 as stated: when the member exists but is not a
readable file, the raised error carries the literal string
`"not a file"`, so the requested member name is NOT retrievable from it. -/
theorem extractIndex_dir_entry_loses_name :
    extractIndex tarDirEntry "index.plist" = .error ⟨"not a file"⟩ ∧
    ("not a file" : String) ≠ "index.plist" := by
  exact ⟨rfl, by decide⟩

/-- Claim C8 amended: extraction fails in both cases; the error carries
the requested member name when the member is absent, and the fixed
string `"not a file"` when the entry is not a readable file. -/
theorem extractIndex_failure_modes (tar : Tar) (fname : String) :
    (tar fname = none → extractIndex tar fname = .error ⟨fname⟩) ∧
    (tar fname = some none → extractIndex tar fname = .error ⟨"not a file"⟩) ∧
    (∀ f, tar fname = some (some f) → extractIndex tar fname = .ok f) := by
  refine ⟨fun h => ?_, fun h => ?_, fun f h => ?_⟩ <;> simp [extractIndex, h]

/-- Witness for the amended C8 on the two concrete failing archives. -/
theorem extractIndex_failure_modes_witness :
    extractIndex tarMissing "stage.plist" = .error ⟨"stage.plist"⟩ ∧
    extractIndex tarDirEntry "index.plist" = .error ⟨"not a file"⟩ :=
  ⟨(extractIndex_failure_modes tarMissing "stage.plist").1 rfl,
   (extractIndex_failure_modes tarDirEntry "index.plist").2.1 rfl⟩

/-- When `rsplitLast` finds no split point, the separator does not occur. -/
theorem rsplitLast_none (c : Char) (l : List Char) (h : rsplitLast c l = none) :
    c ∉ l := by
  induction l with
  | nil => simp
  | cons x xs ih =>
    rw [rsplitLast] at h
    cases hx : rsplitLast c xs with
    | some p => rw [hx] at h; simp at h
    | none =>
      rw [hx] at h
      by_cases hc : x = c
      · simp [hc] at h
      · simp only [List.mem_cons, not_or]
        exact ⟨fun he => hc he.symm, fun hm => ih hx hm⟩

/-- A successful `rsplitLast` splits the list at the LAST occurrence of
the separator: the pieces reassemble to the input and the suffix is
separator-free. -/
theorem rsplitLast_some (c : Char) (l : List Char) :
    ∀ b a, rsplitLast c l = some (b, a) → b ++ c :: a = l ∧ c ∉ a := by
  induction l with
  | nil => intro b a h; simp [rsplitLast] at h
  | cons x xs ih =>
    intro b a h
    rw [rsplitLast] at h
    cases hx : rsplitLast c xs with
    | some p =>
      rw [hx] at h
      obtain ⟨b', a'⟩ := p
      simp only [Option.some.injEq, Prod.mk.injEq] at h
      obtain ⟨hb, ha⟩ := h
      obtain ⟨heq, hna⟩ := ih b' a' hx
      subst hb
      subst ha
      exact ⟨by rw [List.cons_append, heq], hna⟩
    | none =>
      rw [hx] at h
      by_cases hc : x = c
      · subst hc
        rw [if_pos rfl, Option.some.injEq, Prod.mk.injEq] at h
        obtain ⟨hb, ha⟩ := h
        subst hb
        subst ha
        exact ⟨rfl, rsplitLast_none x xs hx⟩
      · simp [hc] at h

/-- Claim C3: whenever `pkgver` is assigned and contains at least one
hyphen, `pkgname` is the part before the last hyphen, `version` the part
after it (so `version` is hyphen-free), and `pkgname ++ "-" ++ version`
reconstructs `pkgver` exactly. -/
theorem pkgver_last_hyphen_split (p : Package) (s : String) (hp : p.pkgver = some s)
    (hh : ('-' : Char) ∈ s.data) :
    ∃ n v, p.pkgname = .ok n ∧ p.version = .ok v ∧
      n ++ "-" ++ v = s ∧ ('-' : Char) ∉ v.data := by
  cases hsplit : rsplitLast '-' s.data with
  | none => exact absurd hh (rsplitLast_none '-' s.data hsplit)
  | some q =>
    obtain ⟨b, a⟩ := q
    obtain ⟨heq, hna⟩ := rsplitLast_some '-' s.data b a hsplit
    refine ⟨⟨b⟩, ⟨a⟩, ?_, ?_, ?_, hna⟩
    · simp [Package.pkgname, hp, pyRPartition, hsplit]
    · simp [Package.version, hp, pyRPartition, hsplit]
    · apply String.ext
      simp only [String.data_append]
      show b ++ ['-'] ++ a = s.data
      rw [List.append_assoc, List.singleton_append, heq]

/-- Witness for C3 at the package `foo-bar-1.2_3`: pkgname `foo-bar`,
version `1.2_3`. -/
theorem pkgver_last_hyphen_split_witness :
    ∃ n v, ({ pkgver := some "foo-bar-1.2_3" } : Package).pkgname = .ok n ∧
      ({ pkgver := some "foo-bar-1.2_3" } : Package).version = .ok v ∧
      n ++ "-" ++ v = "foo-bar-1.2_3" ∧ ('-' : Char) ∉ v.data :=
  pkgver_last_hyphen_split { pkgver := some "foo-bar-1.2_3" } "foo-bar-1.2_3" rfl (by decide)

/-- Assigning any field other than `pkgver` leaves `pkgver` untouched. -/
theorem setField_pkgver_eq (p : Package) (k : String) (v : Value) (h : k ≠ "pkgver") :
    (setField p k v).pkgver = p.pkgver := by
  unfold setField
  split <;> first
    | rfl
    | (cases v <;> simp_all)

/-- The `__init__` loop never initializes `pkgver` when no key of the
mapping normalizes to `pkgver`, whatever package it starts from. -/
theorem foldl_setField_pkgver (kwargs : List (String × Value)) (p : Package)
    (h : ∀ kv ∈ kwargs, normKey kv.1 ≠ "pkgver") (hp : p.pkgver = none) :
    (kwargs.foldl
      (fun q kv =>
        let k := normKey kv.1
        if k ∈ fieldNames then setField q k kv.2 else q) p).pkgver = none := by
  induction kwargs generalizing p with
  | nil => simpa using hp
  | cons kv rest ih =>
    rw [List.foldl_cons]
    apply ih
    · intro kv' h'
      exact h kv' (List.mem_cons_of_mem kv h')
    · show (if normKey kv.1 ∈ fieldNames then setField p (normKey kv.1) kv.2 else p).pkgver = none
      by_cases hm : normKey kv.1 ∈ fieldNames
      · rw [if_pos hm, setField_pkgver_eq p _ _ (h kv (List.mem_cons_self kv rest))]
        exact hp
      · rw [if_neg hm]
        exact hp

/-- Claim C10: `Package.__init__` accepts every raw mapping (the
construction function is total into `Package`, so no input is rejected);
in particular `pkgver` is never required, and on a mapping with no key
normalizing to `pkgver` the built package has no `pkgver`, so the
failure only occurs on first access to `pkgname` or `version`. -/
theorem package_construction_no_pkgver_check (kwargs : List (String × Value))
    (h : ∀ kv ∈ kwargs, normKey kv.1 ≠ "pkgver") :
    (Package.ofMap kwargs).pkgver = none ∧
    (Package.ofMap kwargs).pkgname = .error "AttributeError: pkgver" ∧
    (Package.ofMap kwargs).version = .error "AttributeError: pkgver" := by
  have hp : (Package.ofMap kwargs).pkgver = none := by
    unfold Package.ofMap
    exact foldl_setField_pkgver kwargs {} h rfl
  exact ⟨hp, by simp [Package.pkgname, hp], by simp [Package.version, hp]⟩

/-- Witness for C10 on a mapping holding an architecture, an unknown
key, and no `pkgver` (and implicitly covering the empty mapping case
through the same theorem). -/
theorem package_construction_no_pkgver_check_witness :
    (Package.ofMap [("architecture", .str "x86_64"), ("totally-unknown-field", .str "x")]).pkgver = none ∧
    (Package.ofMap [("architecture", .str "x86_64"), ("totally-unknown-field", .str "x")]).pkgname =
      .error "AttributeError: pkgver" ∧
    (Package.ofMap [("architecture", .str "x86_64"), ("totally-unknown-field", .str "x")]).version =
      .error "AttributeError: pkgver" :=
  package_construction_no_pkgver_check
    [("architecture", .str "x86_64"), ("totally-unknown-field", .str "x")] (by decide)

/-- A predicate preserved by every step of a left fold holds of its
result. -/
theorem foldl_preserve {α β : Type} (P : α → Prop) (f : α → β → α) (l : List β) (init : α)
    (h0 : P init) (hf : ∀ a b, P a → P (f a b)) : P (l.foldl f init) := by
  induction l generalizing init with
  | nil => exact h0
  | cons x xs ih => exact ih (f init x) (hf init x h0)

/-- Every key of a used-shlibs map is a key of the given `old_shlibs`
mapping. -/
def keysInOld (os : List (String × String)) (us : List (String × List String)) : Prop :=
  ∀ kv ∈ us, (dictGet os kv.1).isSome = true

theorem keysInOld_nil (os : List (String × String)) : keysInOld os [] :=
  fun kv h => absurd h (List.not_mem_nil kv)

/-- `usedAdd` keeps the key set inside `old_shlibs` keys provided the
added key is one. -/
theorem keysInOld_usedAdd (os : List (String × String)) (us : List (String × List String))
    (k v : String) (h : keysInOld os us) (hk : (dictGet os k).isSome = true) :
    keysInOld os (usedAdd us k v) := by
  intro kv hkv
  unfold usedAdd at hkv
  split at hkv
  · simp only [List.mem_map] at hkv
    obtain ⟨kv', hkv', rfl⟩ := hkv
    have h1 : (if kv'.1 == k then (kv'.1, kv'.2 ++ [v]) else kv').1 = kv'.1 := by
      split <;> rfl
    rw [h1]
    exact h kv' hkv'
  · rcases List.mem_append.mp hkv with hm | hm
    · exact h kv hm
    · simp only [List.mem_singleton] at hm
      subst hm
      exact hk

/-- `usedDel` only removes entries, so the key-subset property survives. -/
theorem keysInOld_usedDel (os : List (String × String)) (us : List (String × List String))
    (k : String) (h : keysInOld os us) : keysInOld os (usedDel us k) :=
  fun kv hkv => h kv (List.mem_filter.mp hkv).1

/-- Step 3 of `compute_stage` records a library only after checking it
against `old_shlibs`, so its whole output satisfies the key-subset
property. -/
theorem keysInOld_usedStep (rd : Repodata) (os : List (String × String)) :
    keysInOld os (usedStep rd os) := by
  unfold usedStep
  apply foldl_preserve _ _ _ _ (keysInOld_nil os)
  intro us kv hus
  split
  · apply foldl_preserve _ _ _ _ hus
    intro us' shlib hus'
    split
    · rename_i hcond
      exact keysInOld_usedAdd os us' shlib kv.1 hus' hcond
    · exact hus'
  · exact hus

/-- Purge step A only deletes entries. -/
theorem keysInOld_purgeA (rd : Repodata) (os : List (String × String))
    (us : List (String × List String)) (h : keysInOld os us) :
    keysInOld os (purgeA rd us) := by
  unfold purgeA
  apply foldl_preserve _ _ _ _ h
  intro us' kv hus'
  split
  · exact hus'
  · apply foldl_preserve _ _ _ _ hus'
    intro us'' shlib hus''
    split
    · exact keysInOld_usedDel os us'' shlib hus''
    · exact hus''

/-- Purge step B only deletes entries. -/
theorem keysInOld_purgeB (rd : Repodata) (os : List (String × String))
    (us : List (String × List String)) (h : keysInOld os us) :
    keysInOld os (purgeB rd us) := by
  unfold purgeB
  apply foldl_preserve _ _ _ _ h
  intro us' kv hus'
  apply foldl_preserve _ _ _ _ hus'
  intro us'' shlib hus''
  split
  · exact keysInOld_usedDel os us'' shlib hus''
  · exact hus''

/-- Claim C4: every diff produced by `compute_stage` has a present
provider, namely the committed-index package name recorded in
`old_shlibs` for that shared library, because `used_shlibs` keys stay a
subset of `old_shlibs` keys throughout the algorithm. -/
theorem computeStage_provider_present (rd : Repodata) (d : StageDiff)
    (hd : d ∈ rd.computeStage) :
    ∃ prov, d.provider = some prov ∧ dictGet (oldShlibsOf rd) d.shlib = some prov := by
  unfold Repodata.computeStage at hd
  split at hd
  · simp at hd
  · simp only [List.mem_map] at hd
    obtain ⟨kv, hkv, rfl⟩ := hd
    have hinv : keysInOld (oldShlibsOf rd)
        (purgeB rd (purgeA rd (usedStep rd (oldShlibsOf rd)))) :=
      keysInOld_purgeB rd (oldShlibsOf rd) _
        (keysInOld_purgeA rd (oldShlibsOf rd) _ (keysInOld_usedStep rd (oldShlibsOf rd)))
    obtain ⟨prov, hprov⟩ := Option.isSome_iff_exists.mp (hinv kv hkv)
    exact ⟨prov, hprov, hprov⟩

/-- Committed package `C-1.0_1`, providing `libbar.so.2`. -/
def pkgC : Package :=
  { pkgver := some "C-1.0_1", shlib_provides := ["libbar.so.2"] }

/-- Committed package `D-1.0_1`, requiring `libbar.so.2`. -/
def pkgD : Package :=
  { pkgver := some "D-1.0_1", shlib_requires := ["libbar.so.2"] }

/-- Staged replacement `C-2.0_1` that drops `libbar.so.2`. -/
def pkgC2 : Package :=
  { pkgver := some "C-2.0_1" }

/-- Repodata whose stage makes `libbar.so.2` inconsistent. -/
def rdProviderW : Repodata :=
  { index := [("C", pkgC), ("D", pkgD)], stage := [("C", pkgC2)] }

/-- Witness for C4 on the diff `compute_stage` emits for `rdProviderW`. -/
theorem computeStage_provider_present_witness :
    ∃ prov, (StageDiff.mk "libbar.so.2" (some "C") ["D"]).provider = some prov ∧
      dictGet (oldShlibsOf rdProviderW) (StageDiff.mk "libbar.so.2" (some "C") ["D"]).shlib =
        some prov :=
  computeStage_provider_present rdProviderW (StageDiff.mk "libbar.so.2" (some "C") ["D"])
    (by decide)
